import Mathlib

/-!
Shallow embedding of the autowatcher_vale process supervisor.

The embedding follows the two source files:
* autowatch_gui.py : `WatcherThread.run` — the per-project supervision state
  machine (`tick`), the pull-triggered group restart (`pullRestartFull`,
  `restartGroup`) and the repo sync step (`groupSync`);
* autowatch.py : `has_new_commit`, `pull_latest_changes`, `stop_process`,
  `create_github_issue`, `save_log_and_create_issue`.

Time is modelled as a natural number of seconds.  A spawned process is
modelled by the time from which `poll` observes it as exited together with
its exit code; the environment supplies the process that a `start_process`
call would return (`none` models a spawn failure, since `start_process`
returns `None` on exception).  Notifier activity is modelled as the list of
report titles produced by a step.
-/

namespace Autowatch

/-- Model of a spawned OS process handle (a `subprocess.Popen` object).
`exitAt = none` means the process never exits on its own; `exitAt = some t`
means that from time `t` on, `poll` reports termination with exit code
`returncode`. -/
structure ProcHandle where
  exitAt : Option Nat
  returncode : Int
deriving Repr, DecidableEq

/-- `Popen.poll()`: `none` while the process is still running, `some rc`
once it has terminated. -/
def ProcHandle.poll (h : ProcHandle) (now : Nat) : Option Int :=
  match h.exitAt with
  | none => none
  | some t => if t ≤ now then some h.returncode else none

/-- One entry of `autowatch.PROJECTS` (immutable configuration). -/
structure Project where
  name : String
  repo_path : String
  branch_to_watch : String
  script_to_run : String
  github_repo : String
  process_name : String
  max_retries : Nat
  retry_delay : Nat
  startup_period : Nat
deriving Repr, DecidableEq

/-- One entry of `WatcherThread.project_states` (per-project mutable state). -/
structure ProjState where
  retry_count : Nat
  last_retry_time : Nat
  process : Option ProcHandle
  status : String
  script_status : String
  start_time : Nat
  last_fetch_time : Nat
deriving Repr, DecidableEq

/-- The state of a project right after `WatcherThread.__init__` and the
initial `start_process` loop: the handle returned by the initial start
(possibly `none` on spawn failure) and its start time. -/
def initState (proc0 : Option ProcHandle) (t0 : Nat) : ProjState :=
  { retry_count := 0
    last_retry_time := 0
    process := proc0
    status := "Starting..."
    script_status := "Starting..."
    start_time := t0
    last_fetch_time := 0 }

/-- Result of one per-project status check: the updated state, the titles of
the `save_log_and_create_issue` calls made, and whether `start_process` was
invoked. -/
structure TickResult where
  state : ProjState
  reports : List String
  started : Bool
deriving Repr, DecidableEq

/-- One iteration of the per-project status check of `WatcherThread.run`
(autowatch_gui.py lines 90-139), translated branch by branch.  `newProc` is
the handle that `start_process` would return if called at this tick. -/
def tick (p : Project) (now : Nat) (newProc : Option ProcHandle) (s : ProjState) : TickResult :=
  match s.process with
  | some h =>
    match h.poll now with
    | some rc =>
      -- process has terminated
      if now - s.start_time < p.startup_period then
        -- is_startup_failure
        if s.script_status ≠ "Startup Failure" then
          { state := { s with script_status := "Startup Failure" }
            reports := ["Startup Failure: " ++ p.name]
            started := false }
        else
          { state := s, reports := [], started := false }
      else if rc ≠ 0 then
        -- process terminated with an error after startup
        if s.retry_count < p.max_retries then
          if now - s.last_retry_time > p.retry_delay then
            { state := { s with
                script_status := "Crashed. Retrying (" ++ toString (s.retry_count + 1)
                  ++ "/" ++ toString p.max_retries ++ ")"
                process := newProc
                retry_count := s.retry_count + 1
                last_retry_time := now
                start_time := now }
              reports := []
              started := true }
          else
            { state := { s with script_status := "Crashed. Waiting to retry..." }
              reports := [], started := false }
        else
          if s.script_status ≠ "Failed to start. Max retries reached." then
            { state := { s with script_status := "Failed to start. Max retries reached." }
              reports := ["Crash after retries: " ++ p.name]
              started := false }
          else
            { state := s, reports := [], started := false }
      else
        { state := { s with script_status := "Stopped", process := none }
          reports := [], started := false }
    | none =>
      if now - s.start_time > p.startup_period then
        { state := { s with script_status := "Running", retry_count := 0 }
          reports := [], started := false }
      else
        { state := { s with script_status := "Starting up..." }
          reports := [], started := false }
  | none =>
    if s.retry_count < p.max_retries then
      if now - s.last_retry_time > p.retry_delay then
        { state := { s with
            script_status := "Stopped. Retrying (" ++ toString (s.retry_count + 1)
              ++ "/" ++ toString p.max_retries ++ ")"
            process := newProc
            retry_count := s.retry_count + 1
            last_retry_time := now
            start_time := now }
          reports := []
          started := true }
      else
        { state := { s with script_status := "Stopped. Waiting to retry..." }
          reports := [], started := false }
    else
      if s.script_status ≠ "Failed to start. Max retries reached." then
        { state := { s with script_status := "Failed to start. Max retries reached." }
          reports := [], started := false }
      else
        { state := s, reports := [], started := false }

/-- `state["process"] and state["process"].poll() is None`: whether the
project currently has a running (not yet terminated) process. -/
def runningAt (s : ProjState) (now : Nat) : Bool :=
  match s.process with
  | some h => (h.poll now).isNone
  | none => false

/-- Result of the pull-triggered per-member restart: the new state, whether
`stop_process` was called on the old process, and whether `start_process`
was invoked (it always is). -/
structure RestartResult where
  state : ProjState
  stoppedOld : Bool
  started : Bool
deriving Repr, DecidableEq

/-- The per-member body of the successful-pull loop of `WatcherThread.run`
(autowatch_gui.py lines 65-76): set status, stop the old process if it is
still running, start a fresh one, reset `retry_count` to 0, stamp
`start_time`.  Note that `script_status` is not touched. -/
def pullRestartFull (now : Nat) (newProc : Option ProcHandle) (s : ProjState) : RestartResult :=
  { state := { s with
      status := "Restarting Script"
      process := newProc
      retry_count := 0
      start_time := now }
    stoppedOld := runningAt s now
    started := true }

/-- The successful-pull loop over all member projects of a repo group, in
order; each member is paired with the handle its `start_process` call
returns. -/
def restartGroup (now : Nat) : List (ProjState × Option ProcHandle) → List RestartResult
  | [] => []
  | m :: rest => pullRestartFull now m.2 m.1 :: restartGroup now rest

/-- A local git working copy as `has_new_commit` and `pull_latest_changes`
see it: the list of remotes and the hash of `repo.head.commit`. -/
structure Repo where
  remotes : List String
  headHash : String
deriving Repr, DecidableEq

/-- Environment of one `remote.fetch()` round: whether fetching raised
(`git.exc.GitCommandError` or any other exception, all of which
`has_new_commit` catches), and the commit hash of `remote.refs[branch]`
(`none` models the `IndexError` of a branch missing on the remote). -/
structure FetchEnv where
  fetchError : Bool
  remoteHash : Option String
deriving Repr, DecidableEq

/-- `autowatch.has_new_commit`: false when there are no remotes, on any
fetch error, or on a missing branch; otherwise compares local and remote
head hashes. -/
def has_new_commit (repo : Repo) (env : FetchEnv) : Bool :=
  if repo.remotes.isEmpty then false
  else if env.fetchError then false
  else
    match env.remoteHash with
    | none => false
    | some rh => repo.headHash != rh

/-- Outcome of the `remote.pull(...)` call inside `pull_latest_changes`. -/
inductive PullOutcome
  | ok
  | gitError (msg : String)
deriving Repr, DecidableEq

/-- Result of `pull_latest_changes`: the returned boolean and the titles of
the `save_log_and_create_issue` calls made. -/
structure PullResult where
  success : Bool
  reports : List String
deriving Repr, DecidableEq

/-- `autowatch.pull_latest_changes`: returns false without any report when
there are no remotes; otherwise pulls, reporting once (title
"Failed to pull changes") on a `GitCommandError`. -/
def pull_latest_changes (repo : Repo) (outcome : PullOutcome) : PullResult :=
  if repo.remotes.isEmpty then { success := false, reports := [] }
  else
    match outcome with
    | .ok => { success := true, reports := [] }
    | .gitError _ => { success := false, reports := ["Failed to pull changes"] }

/-- Result of the repo-group sync branch: the member states in order and the
report titles produced. -/
structure SyncResult where
  states : List ProjState
  reports : List String
deriving Repr, DecidableEq

/-- The commit-check branch of `WatcherThread.run` (autowatch_gui.py lines
62-82) for one repo group: on a new commit, pull; on pull success restart
every member; on pull failure set the `status` of every member to
"Error Pulling"; with no new commit set the `status` of every member to
"Watching".  Each member is paired with the handle its `start_process`
would return. -/
def groupSync (repo : Repo) (env : FetchEnv) (outcome : PullOutcome) (now : Nat)
    (members : List (ProjState × Option ProcHandle)) : SyncResult :=
  if has_new_commit repo env then
    let pr := pull_latest_changes repo outcome
    if pr.success then
      { states := (restartGroup now members).map RestartResult.state, reports := pr.reports }
    else
      { states := members.map fun m => { m.1 with status := "Error Pulling" }, reports := pr.reports }
  else
    { states := members.map fun m => { m.1 with status := "Watching" }, reports := [] }

/-- Outcome of the `requests.post` call inside `create_github_issue`: an
HTTP status code, or a raised `requests.exceptions.RequestException`
(which the function catches). -/
inductive HttpResult
  | status (code : Nat)
  | requestError (msg : String)
deriving Repr, DecidableEq

/-- Environment of one notifier call: the `GITHUB_TOKEN` value, whether
opening and writing the log file succeeds, and the HTTP outcome. -/
structure NotifyEnv where
  github_token : Option String
  writeOk : Bool
  http : HttpResult
deriving Repr, DecidableEq

/-- What `create_github_issue` did: whether an HTTP POST was attempted and
whether it returned 201. -/
structure IssueResult where
  attempted : Bool
  created : Bool
deriving Repr, DecidableEq

/-- `autowatch.create_github_issue`: returns immediately when the token is
absent; otherwise posts, catching `RequestException` and merely logging
non-201 status codes.  It never raises. -/
def create_github_issue (env : NotifyEnv) : IssueResult :=
  match env.github_token with
  | none => { attempted := false, created := false }
  | some _ =>
    match env.http with
    | .status code => { attempted := true, created := code == 201 }
    | .requestError _ => { attempted := true, created := false }

/-- What a completed `save_log_and_create_issue` call produced: the log file
it wrote and the issue outcome. -/
structure NotifyRecord where
  logFile : String
  issue : IssueResult
deriving Repr, DecidableEq

/-- `autowatch.save_log_and_create_issue`: writes the timestamped log file
(`open(log_filepath, "w")` is not wrapped in any try/except, so a failing
write raises to the caller, modelled by `Except.error`), then calls
`create_github_issue`. -/
def save_log_and_create_issue (env : NotifyEnv) (p : Project) (timestamp : Nat) :
    Except String NotifyRecord :=
  if env.writeOk then
    .ok { logFile := p.name ++ "_" ++ toString timestamp ++ ".log"
          issue := create_github_issue env }
  else
    .error "OSError: cannot open log file"

/-- Whether a notifier call raised an exception to its caller. -/
def raisesToCaller : Except String NotifyRecord → Bool
  | .error _ => true
  | .ok _ => false

/-- One process as `psutil.process_iter(["pid", "name", "cmdline"])` yields
it; `descendants` is the pid list that `children(recursive=True)` returns,
in order. -/
structure OsProc where
  pid : Nat
  name : String
  cmdline : List String
  descendants : List Nat
deriving Repr, DecidableEq

/-- Whether `pat` occurs as a contiguous run of characters in `l`. -/
def containsSeq (pat : List Char) : List Char → Bool
  | [] => pat.isEmpty
  | b :: bs => pat.isPrefixOf (b :: bs) || containsSeq pat bs

/-- Python substring test `pat in s`. -/
def strContains (s pat : String) : Bool :=
  containsSeq pat.toList s.toList

/-- `" ".join(cmdline)`. -/
def joinCmdline (c : List String) : String :=
  String.intercalate " " c

/-- The match test of `stop_process`: the `process_name` of the project or
`script_to_run` occurs in the joined command line. -/
def matchesProject (p : Project) (pr : OsProc) : Bool :=
  strContains (joinCmdline pr.cmdline) p.process_name
    || strContains (joinCmdline pr.cmdline) p.script_to_run

/-- The process-control calls available to `stop_process` (the psutil calls
`terminate`, `wait` — whose `timeout` argument is `none` when called with
no timeout, i.e. an unbounded wait — and `kill`). -/
inductive StopAction
  | terminateChild (pid : Nat)
  | terminate (pid : Nat)
  | wait (pid : Nat) (timeout : Option Nat)
  | kill (pid : Nat)
deriving Repr, DecidableEq

/-- `autowatch.stop_process`: for every process whose command line matches,
terminate each descendant (children first, recursively collected), then
terminate the process, then `p.wait()` — called with no timeout and with no
kill escalation. -/
def stop_process (p : Project) (procs : List OsProc) : List StopAction :=
  procs.flatMap fun pr =>
    if matchesProject p pr then
      pr.descendants.map StopAction.terminateChild
        ++ [StopAction.terminate pr.pid, StopAction.wait pr.pid none]
    else []

/-- Whether a `kill` call occurs in an action trace. -/
def hasKill (as : List StopAction) : Bool :=
  as.any fun a =>
    match a with
    | .kill _ => true
    | _ => false

/-- Whether an unbounded `wait` (no timeout) occurs in an action trace. -/
def hasUnboundedWait (as : List StopAction) : Bool :=
  as.any fun a =>
    match a with
    | .wait _ none => true
    | _ => false

/-- Result of running a sequence of status-check ticks: the final state, the
concatenated report titles, and how many times `start_process` ran. -/
structure RunResult where
  state : ProjState
  reports : List String
  starts : Nat
deriving Repr, DecidableEq

/-- Run the per-project status check at each `(time, newProc)` of the
schedule, in order. -/
def runTicks (p : Project) : ProjState → List (Nat × Option ProcHandle) → RunResult
  | s, [] => { state := s, reports := [], starts := 0 }
  | s, (t, np) :: rest =>
    let r := tick p t np s
    let rr := runTicks p r.state rest
    { state := rr.state
      reports := r.reports ++ rr.reports
      starts := (if r.started then 1 else 0) + rr.starts }

/-- One event of the supervision loop affecting the state of a single project:
a status-check tick, a successful-pull restart, the "Error Pulling" or
"Watching" status writes of the sync branch, or the fetch-time stamping of
line 60. -/
inductive Step (p : Project) : ProjState → ProjState → Prop
  | tickStep (now : Nat) (newProc : Option ProcHandle) (s : ProjState) :
      Step p s (tick p now newProc s).state
  | pullOk (now : Nat) (newProc : Option ProcHandle) (s : ProjState) :
      Step p s (pullRestartFull now newProc s).state
  | pullFail (s : ProjState) : Step p s { s with status := "Error Pulling" }
  | watching (s : ProjState) : Step p s { s with status := "Watching" }
  | fetchStamp (now : Nat) (s : ProjState) : Step p s { s with last_fetch_time := now }

/-- States of one project reachable by the watcher loop from the state right
after the initial start. -/
def Reachable (p : Project) (proc0 : Option ProcHandle) (t0 : Nat) (s : ProjState) : Prop :=
  Relation.ReflTransGen (Step p) (initState proc0 t0) s

/-! ### Concrete inputs used by the scenario traces, counterexamples and
witnesses -/

/-- A project configuration with the parameters of the retry scenario in
the spec: `max_retries = 2`, `retry_delay = 10`, `startup_period = 60`. -/
def scenProject : Project :=
  { name := "P"
    repo_path := "/vale/p"
    branch_to_watch := "main"
    script_to_run := "run.sh"
    github_repo := "arkiven4/p"
    process_name := "run.py"
    max_retries := 2
    retry_delay := 10
    startup_period := 60 }

/-- A project configuration with the default repository parameters:
`max_retries = 3`, `retry_delay = 10`, `startup_period = 180`. -/
def valeProject : Project :=
  { name := "cbm_vale_cbm"
    repo_path := "/vale/cbm_vale"
    branch_to_watch := "main"
    script_to_run := "run_cbm.sh"
    github_repo := "arkiven4/cbm_vale"
    process_name := "run_cbm.py"
    max_retries := 3
    retry_delay := 10
    startup_period := 180 }

/-- A process that terminates with exit code 1 as soon as it is started at
time `t` (an immediate crash). -/
def crashProc (t : Nat) : ProcHandle :=
  { exitAt := some t, returncode := 1 }

/-- The initial state of the retry scenario: the first process is started at
t = 0 and crashes immediately. -/
def scenInit : ProjState := initState (some (crashProc 0)) 0

/-- The tick schedule of the retry scenario: the 5-second watcher cadence,
ticks at t = 5, 10, ..., 185, each started process crashing immediately. -/
def scenSched : List (Nat × Option ProcHandle) :=
  (List.range 37).map fun i => (5 * (i + 1), some (crashProc (5 * (i + 1))))

/-! ### Helper lemmas -/

/-- One status-check tick preserves the retry bound: `retry_count` is only
incremented under a `retry_count < max_retries` guard, otherwise kept or
reset to 0. -/
theorem tick_retry_le (p : Project) (now : Nat) (np : Option ProcHandle) (s : ProjState)
    (h : s.retry_count ≤ p.max_retries) :
    (tick p now np s).state.retry_count ≤ p.max_retries := by
  unfold tick
  rcases s.process with _ | ph
  · dsimp only
    split_ifs <;> simp <;> omega
  · dsimp only
    rcases ph.poll now with _ | rc
    · dsimp only
      split_ifs <;> simp [h]
    · dsimp only
      split_ifs <;> simp <;> omega

/-- Once `retry_count` has reached `max_retries`, a status-check tick never
invokes `start_process`: both starting branches are guarded by
`retry_count < max_retries`. -/
theorem tick_no_start (p : Project) (now : Nat) (np : Option ProcHandle) (s : ProjState)
    (h : p.max_retries ≤ s.retry_count) :
    (tick p now np s).started = false := by
  unfold tick
  rcases s.process with _ | ph
  · dsimp only
    split_ifs <;> first | rfl | omega
  · dsimp only
    rcases ph.poll now with _ | rc
    · dsimp only
      split_ifs <;> rfl
    · dsimp only
      split_ifs <;> first | rfl | omega

/-- A concrete exhausted state: `retry_count` at the configured maximum of
`valeProject`, no process handle. -/
def exhaustedState : ProjState :=
  { retry_count := 3
    last_retry_time := 44
    process := none
    status := "Watching"
    script_status := "Failed to start. Max retries reached."
    start_time := 33
    last_fetch_time := 0 }

/-- Claim C1: in every state reachable by the watcher loop, `retry_count`
never exceeds `max_retries`; once `retry_count` equals `max_retries` and no
process is running, a status-check tick starts no new process; a successful
pull resets `retry_count` to 0. -/
theorem retry_bound_C1 (p : Project) (proc0 : Option ProcHandle) (t0 : Nat) :
    (∀ s, Reachable p proc0 t0 s → s.retry_count ≤ p.max_retries) ∧
    (∀ (s : ProjState) (now : Nat) (np : Option ProcHandle),
      s.retry_count = p.max_retries → runningAt s now = false →
      (tick p now np s).started = false) ∧
    (∀ (s : ProjState) (now : Nat) (np : Option ProcHandle),
      (pullRestartFull now np s).state.retry_count = 0) := by
  refine ⟨?_, ?_, ?_⟩
  · intro s hr
    induction hr with
    | refl => exact Nat.zero_le _
    | tail _ st ih =>
      cases st with
      | tickStep now np q => exact tick_retry_le _ _ _ _ ih
      | pullOk now np q => exact Nat.zero_le _
      | pullFail q => exact ih
      | watching q => exact ih
      | fetchStamp now q => exact ih
  · intro s now np hmax _
    exact tick_no_start p now np s (Nat.le_of_eq hmax.symm)
  · intro s now np
    rfl

/-- Witness for C1 at concrete inputs: the initial state is reachable and
within the bound; a tick on an exhausted state starts nothing; a pull
restart resets the count. -/
theorem retry_bound_C1_witness :
    (initState none 0).retry_count ≤ valeProject.max_retries ∧
    (tick valeProject 50 none exhaustedState).started = false ∧
    (pullRestartFull 60 none exhaustedState).state.retry_count = 0 :=
  ⟨(retry_bound_C1 valeProject none 0).1 _ Relation.ReflTransGen.refl,
    (retry_bound_C1 valeProject none 0).2.1 exhaustedState 50 none rfl rfl,
    (retry_bound_C1 valeProject none 0).2.2 exhaustedState 60 none⟩

/-- Claim C2 counterexample: with `max_retries = 2`, `retry_delay = 10`,
`startup_period = 60` and every started process crashing immediately, the
first tick observing a startup failure consumes no retry attempt and starts
nothing (the startup-failure branch only reports), and the whole run makes
four Notifier calls, not the claimed three. -/
theorem startup_consumes_retry_C2_counterexample :
    (tick scenProject 5 (some (crashProc 5)) scenInit).state.retry_count = 0 ∧
    (tick scenProject 5 (some (crashProc 5)) scenInit).started = false ∧
    (runTicks scenProject scenInit scenSched).reports.length = 4 := by
  refine ⟨rfl, rfl, ?_⟩
  rfl

/-- Claim C2 (amended): a startup failure does not consume a retry attempt
while the grace window is open; since `start_time` is never updated while
the terminated process sits in the startup-failure branch, the exit is
re-classified as a runtime crash once `startup_period` has elapsed since
its start, so with immediate crashes the retries fire at t = 60 and
t = 120; each of the three crashed processes is reported as a startup
failure and one max-retries report follows: four Notifier calls in total,
two retry starts, ending exhausted. -/
theorem startup_consumes_retry_C2 :
    (runTicks scenProject scenInit scenSched).reports =
      ["Startup Failure: P", "Startup Failure: P", "Startup Failure: P",
        "Crash after retries: P"] ∧
    (runTicks scenProject scenInit scenSched).starts = 2 ∧
    (runTicks scenProject scenInit scenSched).state.script_status =
      "Failed to start. Max retries reached." ∧
    (runTicks scenProject scenInit scenSched).state.retry_count = scenProject.max_retries := by
  exact ⟨rfl, rfl, rfl, rfl⟩

/-- A process that exits cleanly (code 0) immediately after being started
at t = 0. -/
def cleanFastExit : ProcHandle := { exitAt := some 0, returncode := 0 }

/-- The project state right after starting `cleanFastExit` at t = 0. -/
def cleanFastState : ProjState := initState (some cleanFastExit) 0

/-- A state whose process exits cleanly (code 0) at t = 190, after the
grace window of `valeProject` has elapsed. -/
def cleanSlowState : ProjState :=
  initState (some { exitAt := some 190, returncode := 0 }) 0

/-- Claim C3 counterexample: a process that exits with code 0 before
`startup_period` has elapsed is not set to "Stopped" — the startup-failure
check is evaluated before the exit code, so the tick reports a startup
failure and keeps the terminated handle. -/
theorem clean_exit_C3_counterexample :
    cleanFastState.process = some cleanFastExit ∧
    cleanFastExit.poll 5 = some 0 ∧
    5 - cleanFastState.start_time < valeProject.startup_period ∧
    (tick valeProject 5 none cleanFastState).state.script_status = "Startup Failure" ∧
    (tick valeProject 5 none cleanFastState).reports = ["Startup Failure: cbm_vale_cbm"] ∧
    (tick valeProject 5 none cleanFastState).state.process = some cleanFastExit := by
  exact ⟨rfl, rfl, by decide, rfl, rfl, rfl⟩

/-- Claim C3 (amended): a process that exits with code 0 after
`startup_period` has elapsed since its start yields "Stopped": the handle
is cleared, no report is made, no process is started and `retry_count` is
unchanged.  (A code-0 exit inside the grace window is instead treated as a
startup failure.) -/
theorem clean_exit_C3 (p : Project) (now : Nat) (np : Option ProcHandle) (s : ProjState)
    (h : ProcHandle) (hp : s.process = some h) (hpoll : h.poll now = some 0)
    (hel : p.startup_period ≤ now - s.start_time) :
    (tick p now np s).state.script_status = "Stopped" ∧
    (tick p now np s).state.process = none ∧
    (tick p now np s).reports = [] ∧
    (tick p now np s).started = false ∧
    (tick p now np s).state.retry_count = s.retry_count := by
  have h1 : ¬ (now - s.start_time < p.startup_period) := by omega
  have h2 : ¬ ((0 : Int) ≠ 0) := by simp
  simp [tick, hp, hpoll, if_neg h1, if_neg h2]

/-- Witness for C3 at a concrete input: a clean exit at t = 190 observed at
t = 200, past the 180-second grace window of `valeProject`. -/
theorem clean_exit_C3_witness :
    (tick valeProject 200 none cleanSlowState).state.script_status = "Stopped" ∧
    (tick valeProject 200 none cleanSlowState).state.process = none ∧
    (tick valeProject 200 none cleanSlowState).reports = [] ∧
    (tick valeProject 200 none cleanSlowState).started = false ∧
    (tick valeProject 200 none cleanSlowState).state.retry_count = cleanSlowState.retry_count :=
  clean_exit_C3 valeProject 200 none cleanSlowState
    { exitAt := some 190, returncode := 0 } rfl rfl (by decide)

/-- The successful-pull loop visits each member exactly once, in order. -/
theorem restartGroup_length (now : Nat) (members : List (ProjState × Option ProcHandle)) :
    (restartGroup now members).length = members.length := by
  induction members with
  | nil => rfl
  | cons m rest ih => simpa [restartGroup] using ih

/-- The i-th result of the successful-pull loop is the restart of the i-th
member. -/
theorem restartGroup_get (now : Nat) (members : List (ProjState × Option ProcHandle))
    (i : Nat) (h1 : i < (restartGroup now members).length) (h2 : i < members.length) :
    (restartGroup now members).get ⟨i, h1⟩ =
      pullRestartFull now (members.get ⟨i, h2⟩).2 (members.get ⟨i, h2⟩).1 := by
  induction members generalizing i with
  | nil => exact absurd h2 (Nat.not_lt_zero i)
  | cons m rest ih =>
    cases i with
    | zero => rfl
    | succ n =>
      exact ih n (by simpa [restartGroup] using h1) (Nat.lt_of_succ_lt_succ h2)

/-- A state with a process that is still running (never exits on its own). -/
def runningMember : ProjState :=
  { initState (some { exitAt := none, returncode := 0 }) 80 with
      script_status := "Running" }

/-- The two-member group used by the C4 witness: one member exhausted with
no process, one member running. -/
def memberList : List (ProjState × Option ProcHandle) :=
  [(exhaustedState, some { exitAt := none, returncode := 0 }),
    (runningMember, some { exitAt := none, returncode := 0 })]

/-- Claim C4: after a successful pull, the restart loop visits every member
project exactly once in the same tick; each member gets `start_process`
invoked, its `retry_count` reset to 0, its `start_time` stamped, its old
process stopped exactly when it was still running — regardless of its prior
phase, whose string is left untouched. -/
theorem group_restart_C4 (now : Nat) (members : List (ProjState × Option ProcHandle)) :
    (restartGroup now members).length = members.length ∧
    ∀ i (h1 : i < (restartGroup now members).length) (h2 : i < members.length),
      ((restartGroup now members).get ⟨i, h1⟩).started = true ∧
      ((restartGroup now members).get ⟨i, h1⟩).state.retry_count = 0 ∧
      ((restartGroup now members).get ⟨i, h1⟩).state.process = (members.get ⟨i, h2⟩).2 ∧
      ((restartGroup now members).get ⟨i, h1⟩).state.start_time = now ∧
      ((restartGroup now members).get ⟨i, h1⟩).state.status = "Restarting Script" ∧
      ((restartGroup now members).get ⟨i, h1⟩).state.script_status =
        (members.get ⟨i, h2⟩).1.script_status ∧
      ((restartGroup now members).get ⟨i, h1⟩).stoppedOld =
        runningAt (members.get ⟨i, h2⟩).1 now := by
  refine ⟨restartGroup_length now members, ?_⟩
  intro i h1 h2
  rw [restartGroup_get now members i h1 h2]
  exact ⟨rfl, rfl, rfl, rfl, rfl, rfl, rfl⟩

/-- Witness for C4 at a concrete two-member group: the exhausted member and
the running member are both restarted, counts reset, the running one
stopped first. -/
theorem group_restart_C4_witness :
    (restartGroup 100 memberList).length = memberList.length ∧
    ((restartGroup 100 memberList).get ⟨0, by decide⟩).state.retry_count = 0 ∧
    ((restartGroup 100 memberList).get ⟨1, by decide⟩).started = true ∧
    ((restartGroup 100 memberList).get ⟨1, by decide⟩).stoppedOld =
      runningAt (memberList.get ⟨1, by decide⟩).1 100 :=
  ⟨(group_restart_C4 100 memberList).1,
    ((group_restart_C4 100 memberList).2 0 (by decide) (by decide)).2.1,
    ((group_restart_C4 100 memberList).2 1 (by decide) (by decide)).1,
    ((group_restart_C4 100 memberList).2 1 (by decide) (by decide)).2.2.2.2.2.2⟩

/-- The state of the C5 counterexample: the scenario project fails at
startup at t = 0, the failure is reported at the t = 5 tick, and at t = 10
a successful pull restarts the project with a process that again crashes
immediately.  The pull loop does not touch `script_status`, which therefore
still reads "Startup Failure". -/
def pulledBackState : ProjState :=
  (pullRestartFull 10 (some (crashProc 10))
    (tick scenProject 5 (some (crashProc 5)) scenInit).state).state

/-- The ticks observing the second failure instance: t = 15, 20, ..., 65,
all inside the 60-second grace window that opened at t = 10. -/
def guardSched : List (Nat × Option ProcHandle) :=
  (List.range 11).map fun i => (15 + 5 * i, some (crashProc (15 + 5 * i)))

/-- Claim C5 counterexample: a fresh process started by a successful pull
crashes before `startup_period` elapses, yet every tick observing it
produces zero startup-failure reports — the guard compares against
`script_status`, which the pull restart left at "Startup Failure". -/
theorem startup_report_once_C5_counterexample :
    pulledBackState.script_status = "Startup Failure" ∧
    pulledBackState.process = some (crashProc 10) ∧
    (crashProc 10).poll 15 = some 1 ∧
    15 - pulledBackState.start_time < scenProject.startup_period ∧
    (runTicks scenProject pulledBackState guardSched).reports = [] := by
  exact ⟨rfl, rfl, rfl, by decide, rfl⟩

/-- Claim C5 (amended): a tick observing a process that exited inside the
grace window never starts anything and reports at most once: if
`script_status` is not already "Startup Failure" when the exit is first
observed (as after any tick-driven retry), exactly one startup-failure
report is produced and the status is set so later ticks add none; if it
already is "Startup Failure" (as after a pull restart of a project already
in that state), the tick reports nothing and leaves the state unchanged. -/
theorem startup_report_once_C5 (p : Project) (now : Nat) (np : Option ProcHandle)
    (s : ProjState) (h : ProcHandle) (rc : Int) (hp : s.process = some h)
    (hpoll : h.poll now = some rc) (hel : now - s.start_time < p.startup_period) :
    (tick p now np s).started = false ∧
    (s.script_status ≠ "Startup Failure" →
      (tick p now np s).reports = ["Startup Failure: " ++ p.name] ∧
      (tick p now np s).state.script_status = "Startup Failure") ∧
    (s.script_status = "Startup Failure" →
      (tick p now np s).reports = [] ∧ (tick p now np s).state = s) := by
  by_cases hss : s.script_status = "Startup Failure"
  · simp [tick, hp, hpoll, if_pos hel, hss]
  · simp [tick, hp, hpoll, if_pos hel, hss]

/-- Witness for C5 at a concrete input: the very first startup failure of
the scenario, observed at t = 5 with a fresh status string, is reported
exactly once. -/
theorem startup_report_once_C5_witness :
    (tick scenProject 5 (some (crashProc 5)) scenInit).started = false ∧
    (tick scenProject 5 (some (crashProc 5)) scenInit).reports =
      ["Startup Failure: " ++ scenProject.name] ∧
    (tick scenProject 5 (some (crashProc 5)) scenInit).state.script_status =
      "Startup Failure" :=
  ⟨(startup_report_once_C5 scenProject 5 (some (crashProc 5)) scenInit
      (crashProc 0) 1 rfl rfl (by decide)).1,
    (startup_report_once_C5 scenProject 5 (some (crashProc 5)) scenInit
      (crashProc 0) 1 rfl rfl (by decide)).2.1 (by decide)⟩

/-- The tick schedule of the C6 counterexample: every spawn fails
(`start_process` returns `None`), so three retry ticks drive `retry_count`
to the maximum of `valeProject` with no process handle, and a fourth tick
observes the exhausted, process-less state. -/
def spawnFailSched : List (Nat × Option ProcHandle) :=
  [(11, none), (22, none), (33, none), (44, none)]

/-- Claim C6 counterexample: a run reaching `retry_count = max_retries`
with no process handle (repeated spawn failures) ends with the tick that
observes exhaustion making zero Notifier calls — the process-less
max-retries branch only writes the status string, and the one report that
does exist elsewhere is titled "Crash after retries", not
"max retries reached". -/
theorem exhausted_report_C6_counterexample :
    (runTicks valeProject (initState none 0) spawnFailSched).state.retry_count =
      valeProject.max_retries ∧
    (runTicks valeProject (initState none 0) spawnFailSched).state.process = none ∧
    (runTicks valeProject (initState none 0) spawnFailSched).state.script_status =
      "Failed to start. Max retries reached." ∧
    (runTicks valeProject (initState none 0) spawnFailSched).reports = [] := by
  exact ⟨rfl, rfl, rfl, rfl⟩

/-- Claim C6 (amended): when `retry_count` has reached `max_retries` and no
process is running, the tick starts nothing; if the terminated handle is
still present (past the grace window, non-zero exit), exactly one guarded
report titled "Crash after retries: name" is made and repeats add none; if
the handle is absent, the tick only writes the status string and makes no
Notifier call at all. -/
theorem exhausted_report_C6 (p : Project) (now : Nat) (np : Option ProcHandle)
    (s : ProjState) :
    (∀ (h : ProcHandle) (rc : Int), s.process = some h → h.poll now = some rc → rc ≠ 0 →
      p.startup_period ≤ now - s.start_time → p.max_retries ≤ s.retry_count →
      (tick p now np s).started = false ∧
      (s.script_status ≠ "Failed to start. Max retries reached." →
        (tick p now np s).reports = ["Crash after retries: " ++ p.name] ∧
        (tick p now np s).state.script_status = "Failed to start. Max retries reached.") ∧
      (s.script_status = "Failed to start. Max retries reached." →
        (tick p now np s).reports = [] ∧ (tick p now np s).state = s)) ∧
    (s.process = none → p.max_retries ≤ s.retry_count →
      (tick p now np s).reports = [] ∧ (tick p now np s).started = false ∧
      (tick p now np s).state.script_status = "Failed to start. Max retries reached.") := by
  constructor
  · intro h rc hp hpoll hrc hel hmax
    have h1 : ¬ (now - s.start_time < p.startup_period) := by omega
    have h2 : ¬ (s.retry_count < p.max_retries) := by omega
    by_cases hss : s.script_status = "Failed to start. Max retries reached."
    · simp [tick, hp, hpoll, if_neg h1, if_pos hrc, if_neg h2, hss]
    · simp [tick, hp, hpoll, if_neg h1, if_pos hrc, if_neg h2, hss]
  · intro hp hmax
    have h2 : ¬ (s.retry_count < p.max_retries) := by omega
    by_cases hss : s.script_status = "Failed to start. Max retries reached."
    · simp [tick, hp, if_neg h2, hss]
    · simp [tick, hp, if_neg h2, hss]

/-- An exhausted state whose terminated handle is still present: the third
retry of `valeProject` started a process at t = 120 that crashed at once,
observed after the grace window. -/
def crashedExhausted : ProjState :=
  { retry_count := 3
    last_retry_time := 120
    process := some (crashProc 120)
    status := "Watching"
    script_status := "Startup Failure"
    start_time := 120
    last_fetch_time := 0 }

/-- Witness for C6 at concrete inputs: the handle-present exhausted state is
reported once with the "Crash after retries" title; the handle-absent
exhausted state yields no report and no start. -/
theorem exhausted_report_C6_witness :
    (tick valeProject 301 none crashedExhausted).started = false ∧
    (tick valeProject 301 none crashedExhausted).reports =
      ["Crash after retries: " ++ valeProject.name] ∧
    (tick valeProject 50 none exhaustedState).reports = [] ∧
    (tick valeProject 50 none exhaustedState).started = false :=
  ⟨((exhausted_report_C6 valeProject 301 none crashedExhausted).1
      (crashProc 120) 1 rfl rfl (by decide) (by decide) (by decide)).1,
    (((exhausted_report_C6 valeProject 301 none crashedExhausted).1
      (crashProc 120) 1 rfl rfl (by decide) (by decide) (by decide)).2.1 (by decide)).1,
    ((exhausted_report_C6 valeProject 50 none exhaustedState).2 rfl (by decide)).1,
    ((exhausted_report_C6 valeProject 50 none exhaustedState).2 rfl (by decide)).2.1⟩

/-- `has_new_commit` can only return true when the repository has at least
one remote. -/
theorem has_new_commit_remotes (repo : Repo) (env : FetchEnv)
    (h : has_new_commit repo env = true) : repo.remotes.isEmpty = false := by
  unfold has_new_commit at h
  by_cases he : repo.remotes.isEmpty
  · simp [he] at h
  · simpa using he

/-- Claim C7: within the watcher flow (the pull only runs after
`has_new_commit` returned true, which requires a remote), a pull that fails
with a `GitCommandError` leaves every member project untouched except for
the repo-level `status` string ("Error Pulling"): `script_status` (the
phase), the process handle and `retry_count` are unchanged, no member is
restarted, and exactly one Notifier call ("Failed to pull changes") is
made. -/
theorem pull_failure_C7 (repo : Repo) (env : FetchEnv) (msg : String) (now : Nat)
    (members : List (ProjState × Option ProcHandle))
    (hnc : has_new_commit repo env = true) :
    (groupSync repo env (.gitError msg) now members).reports = ["Failed to pull changes"] ∧
    (groupSync repo env (.gitError msg) now members).states =
      members.map (fun m => { m.1 with status := "Error Pulling" }) ∧
    ∀ m ∈ members,
      ({ m.1 with status := "Error Pulling" } : ProjState).script_status =
        m.1.script_status ∧
      ({ m.1 with status := "Error Pulling" } : ProjState).process = m.1.process ∧
      ({ m.1 with status := "Error Pulling" } : ProjState).retry_count = m.1.retry_count := by
  have hre := has_new_commit_remotes repo env hnc
  have hpull : pull_latest_changes repo (.gitError msg) =
      { success := false, reports := ["Failed to pull changes"] } := by
    simp [pull_latest_changes, hre]
  refine ⟨?_, ?_, ?_⟩
  · simp [groupSync, hnc, hpull]
  · simp [groupSync, hnc, hpull]
  · intro m _
    exact ⟨rfl, rfl, rfl⟩

/-- Witness for C7 at a concrete input: one remote, differing local and
remote hashes, a pull failure, a single running member. -/
theorem pull_failure_C7_witness :
    (groupSync { remotes := ["origin"], headHash := "aaa" }
        { fetchError := false, remoteHash := some "bbb" } (.gitError "conflict") 90
        [(runningMember, none)]).reports = ["Failed to pull changes"] ∧
    (groupSync { remotes := ["origin"], headHash := "aaa" }
        { fetchError := false, remoteHash := some "bbb" } (.gitError "conflict") 90
        [(runningMember, none)]).states =
      [{ runningMember with status := "Error Pulling" }] :=
  ⟨(pull_failure_C7 { remotes := ["origin"], headHash := "aaa" }
      { fetchError := false, remoteHash := some "bbb" } "conflict" 90
      [(runningMember, none)] (by decide)).1,
    (pull_failure_C7 { remotes := ["origin"], headHash := "aaa" }
      { fetchError := false, remoteHash := some "bbb" } "conflict" 90
      [(runningMember, none)] (by decide)).2.1⟩

/-- The notifier environment of the C8 counterexample: a token is present
and the HTTP call would succeed, but the log-file write fails. -/
def noDiskEnv : NotifyEnv :=
  { github_token := some "tok", writeOk := false, http := .status 201 }

/-- Claim C8 counterexample: `save_log_and_create_issue` opens the log file
outside any try/except, so a failing write raises to the caller — the call
is not non-throwing for every input. -/
theorem notifier_nothrow_C8_counterexample :
    raisesToCaller (save_log_and_create_issue noDiskEnv valeProject 42) = true := rfl

/-- Claim C8 (amended): provided the log-file write succeeds, a notifier
call never raises to the caller: it persists the timestamped log record,
and when the tracker token is absent it degrades to persist-only (no HTTP
POST is attempted); HTTP failures are caught inside
`create_github_issue`. -/
theorem notifier_nothrow_C8 (env : NotifyEnv) (p : Project) (ts : Nat)
    (hw : env.writeOk = true) :
    raisesToCaller (save_log_and_create_issue env p ts) = false ∧
    save_log_and_create_issue env p ts =
      .ok { logFile := p.name ++ "_" ++ toString ts ++ ".log"
            issue := create_github_issue env } ∧
    (env.github_token = none →
      create_github_issue env = { attempted := false, created := false }) := by
  refine ⟨?_, ?_, ?_⟩
  · simp [raisesToCaller, save_log_and_create_issue, hw]
  · simp [save_log_and_create_issue, hw]
  · intro ht
    simp [create_github_issue, ht]

/-- Witness for C8 at a concrete input: no token, write succeeds — the log
is persisted, nothing raised, no issue attempted. -/
theorem notifier_nothrow_C8_witness :
    raisesToCaller (save_log_and_create_issue
      { github_token := none, writeOk := true, http := .requestError "timeout" }
      valeProject 42) = false ∧
    create_github_issue
      { github_token := none, writeOk := true, http := .requestError "timeout" } =
      { attempted := false, created := false } :=
  ⟨(notifier_nothrow_C8
      { github_token := none, writeOk := true, http := .requestError "timeout" }
      valeProject 42 rfl).1,
    (notifier_nothrow_C8
      { github_token := none, writeOk := true, http := .requestError "timeout" }
      valeProject 42 rfl).2.2 rfl⟩

/-- Unfolding of `stop_process` over one scanned process. -/
theorem stop_process_cons (p : Project) (q : OsProc) (rest : List OsProc) :
    stop_process p (q :: rest) =
      (if matchesProject p q then
        q.descendants.map StopAction.terminateChild
          ++ [StopAction.terminate q.pid, StopAction.wait q.pid none]
      else []) ++ stop_process p rest := by
  by_cases hm : matchesProject p q
  · simp [stop_process, hm]
  · simp [stop_process, hm]

/-- `hasKill` distributes over list append. -/
theorem hasKill_append (l1 l2 : List StopAction) :
    hasKill (l1 ++ l2) = (hasKill l1 || hasKill l2) := by
  simp [hasKill, List.any_append]

/-- The per-process action block contains no `kill` call. -/
theorem hasKill_block (ds : List Nat) (pid : Nat) :
    hasKill (ds.map StopAction.terminateChild
      ++ [StopAction.terminate pid, StopAction.wait pid none]) = false := by
  induction ds with
  | nil => rfl
  | cons d ds ih => simp [hasKill]

/-- `stop_process` never calls `kill`, on any process table. -/
theorem stop_process_no_kill (p : Project) (procs : List OsProc) :
    hasKill (stop_process p procs) = false := by
  induction procs with
  | nil => rfl
  | cons q rest ih =>
    rw [stop_process_cons, hasKill_append, ih, Bool.or_false]
    by_cases hm : matchesProject p q
    · rw [if_pos hm, hasKill_block]
    · rw [if_neg hm]
      rfl

/-- A matching OS process: `valeProject.script_to_run` occurs in its joined
command line; pid 7 with descendants 8 and 9. -/
def cbmShellProc : OsProc :=
  { pid := 7
    name := "bash"
    cmdline := ["bash", "/vale/cbm_vale/run_cbm.sh"]
    descendants := [8, 9] }

/-- Claim C9 counterexample: on a concrete process table, `stop_process`
terminates the descendants then the matched process — but then waits with
no timeout (an unbounded wait) and never escalates to a `kill`, so the
bounded-wait-with-escalation half of the claim is false. -/
theorem stop_process_C9_counterexample :
    stop_process valeProject [cbmShellProc] =
      [.terminateChild 8, .terminateChild 9, .terminate 7, .wait 7 none] ∧
    hasUnboundedWait (stop_process valeProject [cbmShellProc]) = true ∧
    hasKill (stop_process valeProject [cbmShellProc]) = false := by
  exact ⟨rfl, rfl, rfl⟩

/-- Claim C9 (amended): for every matched process, `stop_process` emits the
recursive-descendant terminations first, then the termination of the
process itself, then a `wait` called with no timeout — an unbounded wait — and
it never calls `kill` on any input, so there is no forceful-kill
escalation. -/
theorem stop_children_first_C9 (p : Project) (procs : List OsProc) :
    hasKill (stop_process p procs) = false ∧
    ∀ pr ∈ procs, matchesProject p pr = true →
      ∃ pre post, stop_process p procs =
        pre ++ (pr.descendants.map StopAction.terminateChild
          ++ [StopAction.terminate pr.pid, StopAction.wait pr.pid none]) ++ post := by
  refine ⟨stop_process_no_kill p procs, ?_⟩
  induction procs with
  | nil => intro pr hmem; exact absurd hmem (List.not_mem_nil pr)
  | cons q rest ih =>
    intro pr hmem hmatch
    rcases List.mem_cons.mp hmem with heq | htail
    · subst heq
      refine ⟨[], stop_process p rest, ?_⟩
      rw [stop_process_cons, if_pos hmatch, List.nil_append]
    · obtain ⟨pre, post, hsplit⟩ := ih pr htail hmatch
      refine ⟨(if matchesProject p q then
          q.descendants.map StopAction.terminateChild
            ++ [StopAction.terminate q.pid, StopAction.wait q.pid none]
        else []) ++ pre, post, ?_⟩
      rw [stop_process_cons, hsplit]
      simp [List.append_assoc]

/-- Witness for C9 at a concrete input: the stop block of the matched process
(children first, then terminate, then unbounded wait) occurs in the action
trace, and no kill does. -/
theorem stop_children_first_C9_witness :
    hasKill (stop_process valeProject [cbmShellProc]) = false ∧
    ∃ pre post, stop_process valeProject [cbmShellProc] =
      pre ++ ([StopAction.terminateChild 8, StopAction.terminateChild 9]
        ++ [StopAction.terminate 7, StopAction.wait 7 none]) ++ post :=
  ⟨(stop_children_first_C9 valeProject [cbmShellProc]).1,
    (stop_children_first_C9 valeProject [cbmShellProc]).2 cbmShellProc
      (List.mem_singleton.mpr rfl) (by decide)⟩

/-- The C10 limbo state: a startup failure already reported at `valeProject`
parameters — the terminated handle (crashed at t = 0 with code 1) is still
present and `script_status` reads "Startup Failure". -/
def limboState : ProjState :=
  { retry_count := 0
    last_retry_time := 0
    process := some (crashProc 0)
    status := "Watching"
    script_status := "Startup Failure"
    start_time := 0
    last_fetch_time := 0 }

/-- The C10 limbo state with a clean (code 0) early exit instead. -/
def cleanLimboState : ProjState :=
  { limboState with process := some { exitAt := some 0, returncode := 0 } }

/-- Claim C10 counterexample: a project sitting in the reported
startup-failure state is restarted by a plain status-check tick once
`startup_period` has elapsed since `start_time` (the exit is then
re-classified as a runtime crash), and with exit code 0 the handle is
cleared by the tick — both contradicting "the handle is never cleared and
the tick alone never starts a new process". -/
theorem startup_limbo_C10_counterexample :
    limboState.script_status = "Startup Failure" ∧
    (tick valeProject 181 (some (crashProc 181)) limboState).started = true ∧
    (tick valeProject 181 (some (crashProc 181)) limboState).state.process =
      some (crashProc 181) ∧
    (tick valeProject 181 none cleanLimboState).state.process = none := by
  exact ⟨rfl, rfl, rfl, rfl⟩

/-- Claim C10 (amended): while less than `startup_period` has elapsed since
`start_time`, a tick observing the terminated process keeps the handle and
starts nothing; but since `start_time` is never updated in that branch,
once `startup_period` has elapsed the tick alone resumes the normal policy:
a non-zero exit is retried (a new process is started) when attempts and
delay allow, and a zero exit clears the handle. -/
theorem startup_limbo_C10 (p : Project) (now : Nat) (np : Option ProcHandle)
    (s : ProjState) (h : ProcHandle) (rc : Int) (hp : s.process = some h)
    (hpoll : h.poll now = some rc) :
    (now - s.start_time < p.startup_period →
      (tick p now np s).state.process = s.process ∧ (tick p now np s).started = false) ∧
    (p.startup_period ≤ now - s.start_time → rc ≠ 0 → s.retry_count < p.max_retries →
      p.retry_delay < now - s.last_retry_time →
      (tick p now np s).started = true ∧ (tick p now np s).state.process = np) ∧
    (p.startup_period ≤ now - s.start_time → rc = 0 →
      (tick p now np s).state.process = none ∧
      (tick p now np s).state.script_status = "Stopped") := by
  refine ⟨?_, ?_, ?_⟩
  · intro hel
    by_cases hss : s.script_status = "Startup Failure"
    · simp [tick, hp, hpoll, if_pos hel, hss]
    · simp [tick, hp, hpoll, if_pos hel, hss]
  · intro hel hrc hcnt hdel
    have h1 : ¬ (now - s.start_time < p.startup_period) := by omega
    simp [tick, hp, hpoll, if_neg h1, if_pos hrc, if_pos hcnt, hdel]
  · intro hel hrc
    subst hrc
    have h1 : ¬ (now - s.start_time < p.startup_period) := by omega
    have h2 : ¬ ((0 : Int) ≠ 0) := by simp
    simp [tick, hp, hpoll, if_neg h1, if_neg h2]

/-- Witness for C10 at concrete inputs: inside the window the limbo state is
kept; at t = 181 the tick restarts the crashed project; with a clean early
exit the handle is cleared. -/
theorem startup_limbo_C10_witness :
    (tick valeProject 5 none limboState).state.process = limboState.process ∧
    (tick valeProject 5 none limboState).started = false ∧
    (tick valeProject 181 (some (crashProc 181)) limboState).started = true ∧
    (tick valeProject 181 none cleanLimboState).state.script_status = "Stopped" :=
  ⟨((startup_limbo_C10 valeProject 5 none limboState (crashProc 0) 1 rfl rfl).1
      (by decide)).1,
    ((startup_limbo_C10 valeProject 5 none limboState (crashProc 0) 1 rfl rfl).1
      (by decide)).2,
    ((startup_limbo_C10 valeProject 181 (some (crashProc 181)) limboState
      (crashProc 0) 1 rfl rfl).2.1 (by decide) (by decide) (by decide) (by decide)).1,
    ((startup_limbo_C10 valeProject 181 none cleanLimboState
      { exitAt := some 0, returncode := 0 } 0 rfl rfl).2.2 (by decide) rfl).2⟩

end Autowatch
